import Mathlib

/-!
Verification development for the product-scraper extraction pipeline
(`services/scraper.js`).  JavaScript records whose keys may be missing,
`null`, or bound to a value are modelled by `JVal`; the extraction
orchestrator, merge rule, normalizer, validator, result cache and the
delivery-inquiry fallback chain are shallowly embedded as executable
Lean functions mirroring the source control flow.
-/

namespace ProductScraper

/-- A JavaScript field value: the key may be absent from the object
(also covering `undefined`), present with value `null`, or present with
a proper value. -/
inductive JVal (α : Type) where
  | absent
  | null
  | val (a : α)
  deriving DecidableEq, Repr

namespace JVal

/-- JS spread semantics for one field of `{...b, ...a}`: a key present in
`a` (even with value `null`) overrides `b`; an absent key keeps `b`. -/
def spread (b a : JVal α) : JVal α :=
  match a with
  | .absent => b
  | x => x

/-- JS truthiness of a string-valued field: only a present, non-empty
string is truthy (`undefined`, `null` and `""` are falsy). -/
def truthyStr : JVal String → Bool
  | .val s => s != ""
  | _ => false

/-- A field is defined when its key is present on the object (its value
may still be `null`, which JS distinguishes from `undefined`/absent). -/
def defined : JVal α → Bool
  | .absent => false
  | _ => true

/-- `x || []` on an array-valued field (a present array, even empty, is
truthy; `undefined`/`null` give `[]`). -/
def jsArr : JVal (List α) → List α
  | .val l => l
  | _ => []

/-- `x || d` on a string-valued field. -/
def orDefault (v : JVal String) (d : String) : String :=
  match v with
  | .val s => if s != "" then s else d
  | _ => d

/-- `x || null` on a string-valued field. -/
def orNull (v : JVal String) : JVal String :=
  match v with
  | .val s => if s != "" then .val s else .null
  | _ => .null

end JVal

/-- Whether `t` occurs as a contiguous sublist of `l`. -/
def listContains (t : List Char) : List Char → Bool
  | [] => t.isPrefixOf []
  | c :: rest => t.isPrefixOf (c :: rest) || listContains t rest

/-- JS `s.includes(t)` (substring containment). -/
def jsIncludes (s t : String) : Bool :=
  listContains t.data s.data

/-- JS `s.startsWith(t)`. -/
def jsStartsWith (s t : String) : Bool :=
  t.data.isPrefixOf s.data

/-- JS `s.split('?')[0]`: the prefix of `s` before the first `?`. -/
def stripQuery (s : String) : String :=
  ⟨s.data.takeWhile (· ≠ '?')⟩

/-- `array.filter((v, i, a) => a.indexOf(v) === i)`: de-duplication
keeping the first occurrence of each element.  `seen` accumulates the
elements already emitted. -/
def dedupFirstAux (seen : List String) : List String → List String
  | [] => []
  | x :: xs =>
    if x ∈ seen then dedupFirstAux seen xs
    else x :: dedupFirstAux (x :: seen) xs

/-- De-duplication of a string array keeping first occurrences, as the
`filter(indexOf)` idiom in the source does. -/
def dedupFirst (l : List String) : List String :=
  dedupFirstAux [] l

/-- The `delivery` sub-object of a product record
(`{available, estimatedDate, charges, pincode}`). -/
structure Delivery where
  available : JVal Bool
  estimatedDate : JVal String
  charges : JVal String
  pincode : JVal String
  deriving DecidableEq, Repr

/-- The `variants` sub-object of a product record
(`{sizes, colors, other}`). -/
structure Variants where
  sizes : JVal (List String)
  colors : JVal (List String)
  other : JVal (List String)
  deriving DecidableEq, Repr

/-- A product-data object as passed around the pipeline; every field is
a JS field that may be absent, null, or set.  Mirrors the shape built by
`extractBasicDataWithIndex` / returned by the AI strategies. -/
structure ProductData where
  title : JVal String
  price : JVal String
  originalPrice : JVal String
  description : JVal String
  features : JVal (List String)
  images : JVal (List String)
  variants : JVal Variants
  delivery : JVal Delivery
  weight : JVal String
  category : JVal String
  source : JVal String
  scrapedAt : JVal String
  originalUrl : JVal String
  deriving DecidableEq, Repr

/-- A `ScraperError` value: message plus numeric status classification. -/
structure ScraperErr where
  message : String
  statusCode : Nat
  deriving DecidableEq, Repr

/-- `detectPlatform(url)`: substring-match the URL against the four
supported platforms, else throw `ScraperError('Unsupported platform', 400)`. -/
def detectPlatform (url : String) : Except ScraperErr String :=
  if jsIncludes url "amazon.in" || jsIncludes url "amzn.in" then .ok "amazon"
  else if jsIncludes url "flipkart.com" then .ok "flipkart"
  else if jsIncludes url "myntra.com" then .ok "myntra"
  else if jsIncludes url "snapdeal.com" then .ok "snapdeal"
  else .error ⟨"Unsupported platform", 400⟩

/-- One cache file: `{timestamp, url, data}`. -/
structure CacheEntry where
  timestamp : Int
  url : String
  data : ProductData
  deriving DecidableEq, Repr

/-- Cache TTL: 24 hours in milliseconds (`24 * 60 * 60 * 1000`). -/
def TTL_MS : Int := 24 * 60 * 60 * 1000

/-- The cache store, keyed by the URL hash.  The MD5 hashing of the
source is modelled as collision-free keying by the URL itself; lookup
finds the most recently written entry. -/
abbrev CacheStore := List (String × CacheEntry)

/-- `getCachedProduct(url)`: look up the entry for the URL; return its
data when `Date.now() - timestamp < 24h`, otherwise treat as a miss. -/
def getCachedProduct (store : CacheStore) (url : String) (now : Int) :
    Option ProductData :=
  match store.lookup url with
  | none => none
  | some e => if now - e.timestamp < TTL_MS then some e.data else none

/-- `cacheProduct(url, data)`: overwrite the entry for the URL with a
fresh `{timestamp: Date.now(), url, data}` record. -/
def cacheProduct (store : CacheStore) (url : String) (now : Int)
    (data : ProductData) : CacheStore :=
  (url, ⟨now, url, data⟩) :: store

/-- `handleMissingData(productData)`: rebuild the record with every
field present, substituting the documented defaults for falsy or
non-array inputs.  `now` stands for `new Date().toISOString()`. -/
def handleMissingData (now : String) (d : ProductData) : ProductData :=
  let dv : Delivery :=
    match d.delivery with
    | .val v => v
    | _ => ⟨.absent, .absent, .absent, .absent⟩
  let vv : Variants :=
    match d.variants with
    | .val v => v
    | _ => ⟨.absent, .absent, .absent⟩
  { title := .val (d.title.orDefault "Unknown Product")
    price := d.price.orNull
    originalPrice := d.originalPrice.orNull
    description := .val (d.description.orDefault "No description available")
    features := .val d.features.jsArr
    variants := .val ⟨.val vv.sizes.jsArr, .val vv.colors.jsArr, .val vv.other.jsArr⟩
    images := .val d.images.jsArr
    delivery := .val
      { available := match dv.available with
          | .val b => .val b
          | _ => .null
        estimatedDate := dv.estimatedDate.orNull
        charges := dv.charges.orNull
        pincode := .val (dv.pincode.orDefault "201001") }
    weight := d.weight.orNull
    category := .val (d.category.orDefault "Uncategorized")
    source := d.source.orNull
    scrapedAt := .val (d.scrapedAt.orDefault now)
    originalUrl := d.originalUrl.orNull }

/-- `validateScrapedData(data)`: throw `ScraperError(…, 422)` when the
record has no truthy title. -/
def validateScrapedData (d : ProductData) : Except ScraperErr Unit :=
  if d.title.truthyStr then .ok ()
  else .error ⟨"Product data incomplete. Missing title.", 422⟩

/-- `basicData.images?.length > 0` (optional chaining: an absent or null
`images` gives `undefined > 0`, which is false). -/
def imagesNonempty : JVal (List String) → Bool
  | .val l => l.length > 0
  | _ => false

/-- `productData.images?.length === 0`. -/
def imagesLenZero : JVal (List String) → Bool
  | .val l => l.length == 0
  | _ => false

/-- The escalation test of `extractDataWithIndexAndAI`:
`basicData.title && basicData.price && basicData.description &&
basicData.images?.length > 0`. -/
def indexComplete (d : ProductData) : Bool :=
  d.title.truthyStr && d.price.truthyStr && d.description.truthyStr &&
    imagesNonempty d.images

/-- `{...(basicData.variants || {}), ...(aiData.variants || {})}`:
shallow merge of the variants objects, keys present in the AI result
overriding the index result wholesale. -/
def mergeVariantsJs (b a : JVal Variants) : Variants :=
  let bv : Variants := match b with | .val v => v | _ => ⟨.absent, .absent, .absent⟩
  let av : Variants := match a with | .val v => v | _ => ⟨.absent, .absent, .absent⟩
  ⟨bv.sizes.spread av.sizes, bv.colors.spread av.colors, bv.other.spread av.other⟩

/-- The merge step of `extractDataWithIndexAndAI` when both an index
result and an AI result exist: `{...basicData, ...aiData, source:
platform, images: dedup(concat), features: dedup(concat), variants:
shallow merge}`. -/
def mergeIndexAI (basicData aiData : ProductData) (platform : String) :
    ProductData :=
  { title := basicData.title.spread aiData.title
    price := basicData.price.spread aiData.price
    originalPrice := basicData.originalPrice.spread aiData.originalPrice
    description := basicData.description.spread aiData.description
    features := .val (dedupFirst (basicData.features.jsArr ++ aiData.features.jsArr))
    images := .val (dedupFirst (basicData.images.jsArr ++ aiData.images.jsArr))
    variants := .val (mergeVariantsJs basicData.variants aiData.variants)
    delivery := basicData.delivery.spread aiData.delivery
    weight := basicData.weight.spread aiData.weight
    category := basicData.category.spread aiData.category
    source := .val platform
    scrapedAt := basicData.scrapedAt.spread aiData.scrapedAt
    originalUrl := basicData.originalUrl.spread aiData.originalUrl }

/-- Environment of one extraction run: the outcomes the renderer, the
document index and the external AI service would produce.  The pipeline
is a deterministic function of these. -/
structure ScrapeEnv where
  /-- `Date.now()` during this run (cache check and cache write). -/
  now : Int
  /-- `new Date().toISOString()` during this run. -/
  nowIso : String
  /-- Whether `page.goto` rejects (navigation failure / timeout). -/
  gotoFails : Bool
  /-- Message of the navigation error, when it fails. -/
  gotoErrorMsg : String
  /-- Result of `extractBasicDataWithIndex` (index-based extraction). -/
  basicData : ProductData
  /-- Result of `extractDataWithAI` if the pipeline escalates to it
  (that function already contains its own internal fallbacks). -/
  aiData : ProductData
  /-- Result of `extractWeightSpecifically` (`null` modelled as `none`). -/
  weightSpecific : Option String
  /-- Result of `checkDeliveryWithAI` when delivery checking is on. -/
  deliveryInfo : Delivery
  /-- Result of `getFlipkartFullSizeImages` inside the fill step. -/
  flipkartImages : Option (List String)
  /-- Parsed missing-fields JSON of `fillMissingDataWithAI` when its AI
  call and JSON parse succeed; `none` models every failure path. -/
  fillAIResult : Option ProductData

/-- The list of missing critical fields computed at the top of
`fillMissingDataWithAI`. -/
def missingFieldsList (d : ProductData) : List String :=
  (if !d.title.truthyStr then ["title"] else []) ++
  (if !d.price.truthyStr then ["price"] else []) ++
  (if !d.description.truthyStr then ["description"] else []) ++
  (if !d.weight.truthyStr then ["weight"] else []) ++
  (if !d.category.truthyStr then ["category"] else []) ++
  (if imagesLenZero d.images then ["images"] else [])

/-- The merge `fillMissingDataWithAI` performs on its successful AI
path: `{...productData, ...missingData, images: dedup(concat),
variants: shallow merge}`. -/
def mergeFill (d m : ProductData) : ProductData :=
  { title := d.title.spread m.title
    price := d.price.spread m.price
    originalPrice := d.originalPrice.spread m.originalPrice
    description := d.description.spread m.description
    features := d.features.spread m.features
    images := .val (dedupFirst (d.images.jsArr ++ m.images.jsArr))
    variants := .val (mergeVariantsJs d.variants m.variants)
    delivery := d.delivery.spread m.delivery
    weight := d.weight.spread m.weight
    category := d.category.spread m.category
    source := d.source.spread m.source
    scrapedAt := d.scrapedAt.spread m.scrapedAt
    originalUrl := d.originalUrl.spread m.originalUrl }

/-- The category-based weight guess applied on Flipkart when every AI
attempt inside `fillMissingDataWithAI` failed and weight is missing. -/
def flipkartWeightGuess (d : ProductData) (missing : List String) :
    ProductData :=
  if "weight" ∈ missing && d.source == .val "flipkart" then
    let t := (d.title.orDefault "").toLower
    if jsIncludes t "watch" || jsIncludes t "smartwatch" then
      { d with weight := .val "Approx. 30-80g (typical smartwatch weight)" }
    else if jsIncludes t "phone" || jsIncludes t "smartphone" then
      { d with weight := .val "Approx. 150-200g (typical smartphone weight)" }
    else if jsIncludes t "laptop" then
      { d with weight := .val "Approx. 1.5-2kg (typical laptop weight)" }
    else if jsIncludes t "tablet" then
      { d with weight := .val "Approx. 300-500g (typical tablet weight)" }
    else if jsIncludes t "headphone" || jsIncludes t "earphone" ||
        jsIncludes t "earbud" then
      { d with weight := .val "Approx. 5-20g per earbud (typical earphone weight)" }
    else d
  else d

/-- Result of the fill step: the (possibly) completed record and
whether the external AI service was actually called. -/
structure FillResult where
  data : ProductData
  aiCalled : Bool

/-- `fillMissingDataWithAI(page, productData, pageIndex)`: return the
input untouched when no critical field is missing; try the Flipkart
full-size-image shortcut; otherwise call the AI service and merge its
answer (or, on total AI failure, apply the Flipkart weight guess). -/
def fillMissingDataWithAI (env : ScrapeEnv) (d : ProductData) : FillResult :=
  let missing := missingFieldsList d
  if missing.isEmpty then ⟨d, false⟩
  else
    let step :=
      if d.source == .val "flipkart" && "images" ∈ missing then
        match env.flipkartImages with
        | some imgs =>
          if imgs.length > 0 then
            ({ d with images := .val imgs }, missing.erase "images")
          else (d, missing)
        | none => (d, missing)
      else (d, missing)
    let d1 := step.1
    let missing1 := step.2
    if missing1.isEmpty then ⟨d1, false⟩
    else
      match env.fillAIResult with
      | some missingData => ⟨mergeFill d1 missingData, true⟩
      | none => ⟨flipkartWeightGuess d1 missing1, true⟩

/-- Observable actions of one `scrapeProduct` run. -/
structure Trace where
  browserLaunched : Bool
  gotoAttempts : Nat
  aiVisionCalls : Nat
  fillAICalls : Nat
  servedFromCache : Bool
  deriving DecidableEq, Repr

/-- Result of one `scrapeProduct` run: the returned record or thrown
error, the cache store afterwards, and the trace of actions. -/
structure ScrapeResult where
  result : Except ScraperErr ProductData
  store : CacheStore
  trace : Trace

/-- Options of `scrapeProduct` (fields irrelevant to the claims, such
as `headless` and `variants`, are omitted). -/
structure ScrapeOpts where
  bypassCache : Bool
  checkDelivery : Bool
  pincode : String

/-- `extractDataWithIndexAndAI`: return the index result directly when
it is complete, otherwise escalate to `extractDataWithAI` (counted) and
merge.  The second component counts AI-vision calls. -/
def extractDataWithIndexAndAI (env : ScrapeEnv) (platform : String) :
    ProductData × Nat :=
  if indexComplete env.basicData then
    ({ env.basicData with source := .val platform }, 0)
  else
    (mergeIndexAI env.basicData env.aiData platform, 1)

/-- The weight-recovery step of `scrapeProduct`: when the extracted
weight is falsy, try `extractWeightSpecifically` and keep its result
when truthy. -/
def weightStep (env : ScrapeEnv) (pd0 : ProductData) : ProductData :=
  if pd0.weight.truthyStr then pd0
  else
    match env.weightSpecific with
    | some w => if w != "" then { pd0 with weight := .val w } else pd0
    | none => pd0

/-- The delivery step of `scrapeProduct`: `checkDeliveryWithAI` always
returns a (truthy) object, so its result is assigned whenever delivery
checking is enabled. -/
def deliveryStep (env : ScrapeEnv) (opts : ScrapeOpts) (pd1 : ProductData) :
    ProductData :=
  if opts.checkDelivery then { pd1 with delivery := .val env.deliveryInfo }
  else pd1

/-- The `hasMissingData` test of `scrapeProduct` (note it includes
`weight`, unlike the escalation test of `extractDataWithIndexAndAI`). -/
def hasMissingData (pd : ProductData) : Bool :=
  !pd.title.truthyStr || !pd.price.truthyStr ||
  !pd.description.truthyStr || !pd.weight.truthyStr ||
  imagesLenZero pd.images

/-- The extraction phase of `scrapeProduct` between navigation and
normalization: index/AI extraction, specific weight recovery, delivery
check, and the conditional AI fill.  Returns the record together with
the number of AI-vision calls and of AI fill calls. -/
def extractPhase (env : ScrapeEnv) (opts : ScrapeOpts) (platform : String) :
    ProductData × Nat × Nat :=
  let ext := extractDataWithIndexAndAI env platform
  let pd2 := deliveryStep env opts (weightStep env ext.1)
  if hasMissingData pd2 then
    let fr := fillMissingDataWithAI env pd2
    (fr.data, ext.2, if fr.aiCalled then 1 else 0)
  else (pd2, ext.2, 0)

/-- The metadata written onto the record after normalization
(`source`, `scrapedAt`, `originalUrl`). -/
def finalizeRecord (url : String) (env : ScrapeEnv) (platform : String)
    (pd3 : ProductData) : ProductData :=
  { pd3 with
    source := .val platform
    scrapedAt := .val env.nowIso
    originalUrl := .val url }

/-- The body of `scrapeProduct` after the cache check: launch the
browser, detect the platform, navigate, extract, fill, normalize,
validate, cache. -/
def scrapeCore (url : String) (opts : ScrapeOpts) (store : CacheStore)
    (env : ScrapeEnv) : ScrapeResult :=
  match detectPlatform url with
  | .error e => ⟨.error e, store, ⟨true, 0, 0, 0, false⟩⟩
  | .ok platform =>
    if env.gotoFails then
      ⟨.error ⟨"Error scraping product: " ++ env.gotoErrorMsg, 500⟩, store,
        ⟨true, 1, 0, 0, false⟩⟩
    else
      let ex := extractPhase env opts platform
      let pd4 := finalizeRecord url env platform
        (handleMissingData env.nowIso ex.1)
      let trace : Trace := ⟨true, 1, ex.2.1, ex.2.2, false⟩
      match validateScrapedData pd4 with
      | .error e => ⟨.error e, store, trace⟩
      | .ok _ => ⟨.ok pd4, cacheProduct store url env.now pd4, trace⟩

/-- `scrapeProduct(url, options)`: serve from the cache when allowed
and fresh, otherwise run the full extraction pipeline. -/
def scrapeProduct (url : String) (opts : ScrapeOpts) (store : CacheStore)
    (env : ScrapeEnv) : ScrapeResult :=
  if !opts.bypassCache then
    match getCachedProduct store url env.now with
    | some d => ⟨.ok d, store, ⟨false, 0, 0, 0, true⟩⟩
    | none => scrapeCore url opts store env
  else scrapeCore url opts store env

/-- The URL normalization of the image loop in
`extractBasicDataWithIndex`: protocol-relative and root/path-relative
URLs are resolved against the page origin. -/
def normalizeImageUrl (origin url : String) : String :=
  if url != "" && !jsStartsWith url "http" && !jsStartsWith url "data:" then
    if jsStartsWith url "//" then "https:" ++ url
    else if jsStartsWith url "/" then origin ++ url
    else origin ++ "/" ++ url
  else url

/-- The filter of the image loop: a truthy URL that is not a thumbnail,
icon or logo and is not a `data:` URL. -/
def imageUrlOk (fullUrl : String) : Bool :=
  fullUrl != "" && !jsIncludes fullUrl "thumb" &&
    !jsIncludes fullUrl "icon" && !jsIncludes fullUrl "logo" &&
    !jsStartsWith fullUrl "data:"

/-- The image-selection loop of `extractBasicDataWithIndex`: normalize
each candidate URL, drop thumbnails/icons/logos and `data:` URLs, strip
the query string, keep the first occurrence of each URL, and stop after
five.  `acc` holds the selected URLs in reverse. -/
def selectImagesAux (origin : String) (acc : List String) :
    List String → List String
  | [] => acc.reverse
  | url :: rest =>
    let fullUrl := normalizeImageUrl origin url
    if imageUrlOk fullUrl then
      let cleaned := stripQuery fullUrl
      if cleaned ∈ acc then selectImagesAux origin acc rest
      else if acc.length + 1 ≥ 5 then (cleaned :: acc).reverse
      else selectImagesAux origin (cleaned :: acc) rest
    else selectImagesAux origin acc rest

/-- The `topImages` list produced by the index-based image extraction,
given the candidate URLs in score order. -/
def selectTopImages (origin : String) (candidates : List String) :
    List String :=
  selectImagesAux origin [] candidates

/-- The delivery block found by `extractDeliveryTextWithoutPincode`
when it succeeds (`found: true`): all three fields are definite
values (availability defaults to `true` and is set to `false` only on
explicit unavailability text). -/
structure TextScanDelivery where
  available : Bool
  estimatedDate : String
  charges : String
  deriving DecidableEq, Repr

/-- The delivery JSON parsed from the AI-vision answer; the prompt
allows `available` to be `null`, so each field is a JS value. -/
structure AIDelivery where
  available : JVal Bool
  estimatedDate : JVal String
  charges : JVal String
  deriving DecidableEq, Repr

/-- Environment of one `checkDeliveryWithAI` run: the outcomes of the
successive strategies.  The interactive pincode-input attempt only
mutates the page (and is itself guarded by a try/catch), so it is
absorbed into the outcomes of the later strategies. -/
structure DeliveryEnv where
  /-- Whether the body throws outside every inner guard. -/
  outerThrow : Bool
  /-- Result of `checkDeliveryDate` (that function catches its own
  errors and returns an all-null record on failure). -/
  direct : Delivery
  /-- Result of `extractDeliveryTextWithoutPincode`; `none` models
  `found: false`. -/
  textScan : Option TextScanDelivery
  /-- Parsed AI-vision delivery JSON; `none` models AI failure or
  unparsable output. -/
  aiResult : Option AIDelivery

/-- `checkDeliveryWithAI(page, platform, pincode)`: try the direct
platform strategy, then the page-text scan, then AI vision, then a
fixed generic answer; any uncaught throw also yields a fixed generic
answer. -/
def checkDeliveryWithAI (pincode : String) (env : DeliveryEnv) : Delivery :=
  if env.outerThrow then
    ⟨.val true, .val "Standard delivery, check at checkout for details",
      .val "Check at checkout", .val pincode⟩
  else if env.direct.estimatedDate.truthyStr &&
      env.direct.estimatedDate != .val "Error checking delivery" then
    env.direct
  else
    match env.textScan with
    | some t => ⟨.val t.available, .val t.estimatedDate, .val t.charges, .val pincode⟩
    | none =>
      match env.aiResult with
      | some ai => ⟨ai.available, ai.estimatedDate, ai.charges, .val pincode⟩
      | none =>
        ⟨.val true,
          .val "Standard delivery available, check at checkout for exact timeframe",
          .val "Check at checkout", .val pincode⟩

/-! ### Helper lemmas -/

theorem mem_dedupFirstAux (l : List String) :
    ∀ (seen : List String) (y : String),
      y ∈ dedupFirstAux seen l ↔ y ∈ l ∧ y ∉ seen := by
  induction l with
  | nil => intro seen y; simp [dedupFirstAux]
  | cons x xs ih =>
    intro seen y
    by_cases hx : x ∈ seen
    · rw [dedupFirstAux, if_pos hx, ih]
      constructor
      · rintro ⟨hy, hns⟩
        exact ⟨List.mem_cons_of_mem _ hy, hns⟩
      · rintro ⟨hy, hns⟩
        rcases List.mem_cons.mp hy with rfl | hy
        · exact absurd hx hns
        · exact ⟨hy, hns⟩
    · rw [dedupFirstAux, if_neg hx]
      constructor
      · intro hy
        rcases List.mem_cons.mp hy with rfl | hy
        · exact ⟨List.mem_cons_self _ _, hx⟩
        · rcases (ih _ y).mp hy with ⟨h1, h2⟩
          refine ⟨List.mem_cons_of_mem _ h1, fun hc => h2 ?_⟩
          exact List.mem_cons_of_mem _ hc
      · rintro ⟨hy, hns⟩
        rcases List.mem_cons.mp hy with rfl | hy
        · exact List.mem_cons_self _ _
        · by_cases hyx : y = x
          · subst hyx; exact List.mem_cons_self _ _
          · refine List.mem_cons_of_mem _ ((ih _ y).mpr ⟨hy, ?_⟩)
            intro hc
            rcases List.mem_cons.mp hc with h | h
            · exact hyx h
            · exact hns h

theorem nodup_dedupFirstAux (l : List String) :
    ∀ seen : List String, (dedupFirstAux seen l).Nodup := by
  induction l with
  | nil => intro seen; simp [dedupFirstAux]
  | cons x xs ih =>
    intro seen
    by_cases hx : x ∈ seen
    · rw [dedupFirstAux, if_pos hx]; exact ih seen
    · rw [dedupFirstAux, if_neg hx]
      refine List.nodup_cons.mpr ⟨?_, ih _⟩
      intro hc
      exact ((mem_dedupFirstAux xs _ x).mp hc).2 (List.mem_cons_self _ _)

theorem mem_dedupFirst (l : List String) (y : String) :
    y ∈ dedupFirst l ↔ y ∈ l := by
  rw [dedupFirst, mem_dedupFirstAux]
  simp

theorem nodup_dedupFirst (l : List String) : (dedupFirst l).Nodup :=
  nodup_dedupFirstAux l []

theorem jsStartsWith_stripQuery (s t : String)
    (h : jsStartsWith s t = false) :
    jsStartsWith (stripQuery s) t = false := by
  by_contra hc
  rw [Bool.not_eq_false] at hc
  rw [← Bool.not_eq_true] at h
  apply h
  unfold jsStartsWith at hc ⊢
  rw [ List.isPrefixOf_iff_prefix] at hc ⊢
  exact hc.trans ( List.takeWhile_prefix _)

theorem defined_orNull (v : JVal String) : v.orNull.defined = true := by
  cases v with
  | absent => rfl
  | null => rfl
  | val s =>
    rw [JVal.orNull]
    split <;> rfl

theorem truthyStr_orDefault_unknown (v : JVal String) :
    JVal.truthyStr (.val (v.orDefault "Unknown Product")) = true := by
  cases v with
  | absent => rfl
  | null => rfl
  | val s =>
    rw [JVal.orDefault]
    split
    · simpa [JVal.truthyStr] using ‹(s != "") = true›
    · rfl

/-- Every field of the record (including the nested `variants` and
`delivery` objects) is present on the object: none is `undefined` or
missing.  A present `null` counts as defined. -/
def allFieldsDefined (d : ProductData) : Bool :=
  d.title.defined && d.price.defined && d.originalPrice.defined &&
  d.description.defined && d.features.defined && d.images.defined &&
  (match d.variants with
   | .val v => v.sizes.defined && v.colors.defined && v.other.defined
   | _ => false) &&
  (match d.delivery with
   | .val v => v.available.defined && v.estimatedDate.defined &&
       v.charges.defined && v.pincode.defined
   | _ => false) &&
  d.weight.defined && d.category.defined && d.source.defined &&
  d.scrapedAt.defined && d.originalUrl.defined

theorem defined_val (a : α) : (JVal.val a).defined = true := rfl

theorem defined_null : (JVal.null : JVal α).defined = true := rfl

theorem allFieldsDefined_handleMissingData (now : String) (d : ProductData) :
    allFieldsDefined (handleMissingData now d) = true := by
  rcases d with ⟨t, p, op, de, fe, im, va, dl, w, c, so, sa, ou⟩
  cases dl with
  | val dv =>
    rcases dv with ⟨av, ed, ch, pc⟩
    cases av <;>
      simp [handleMissingData, allFieldsDefined, defined_val, defined_null,
        defined_orNull]
  | absent =>
    simp [handleMissingData, allFieldsDefined, defined_val, defined_null,
      defined_orNull]
  | null =>
    simp [handleMissingData, allFieldsDefined, defined_val, defined_null,
      defined_orNull]

theorem selectImagesAux_spec (origin : String) (candidates : List String) :
    ∀ acc : List String, acc.length < 5 → acc.Nodup →
      (∀ u ∈ acc, jsStartsWith u "data:" = false) →
      (selectImagesAux origin acc candidates).length ≤ 5 ∧
      (selectImagesAux origin acc candidates).Nodup ∧
      ∀ u ∈ selectImagesAux origin acc candidates,
        jsStartsWith u "data:" = false := by
  induction candidates with
  | nil =>
    intro acc hlen hnd hdata
    refine ⟨?_, ?_, ?_⟩
    · simpa [selectImagesAux] using Nat.le_of_lt hlen
    · simpa [selectImagesAux] using hnd
    · intro u hu
      exact hdata u (by simpa [selectImagesAux] using hu)
  | cons url rest ih =>
    intro acc hlen hnd hdata
    simp only [selectImagesAux]
    by_cases h1 : imageUrlOk (normalizeImageUrl origin url) = true
    · rw [if_pos h1]
      have hcl : jsStartsWith (stripQuery (normalizeImageUrl origin url))
          "data:" = false :=
        jsStartsWith_stripQuery _ _ (by
          simp only [imageUrlOk, Bool.and_eq_true, Bool.not_eq_true'] at h1
          exact h1.2)
      by_cases h2 : stripQuery (normalizeImageUrl origin url) ∈ acc
      · rw [if_pos h2]
        exact ih acc hlen hnd hdata
      · rw [if_neg h2]
        by_cases h3 : acc.length + 1 ≥ 5
        · rw [if_pos h3]
          refine ⟨?_, ?_, ?_⟩
          · simp only [List.length_reverse, List.length_cons]
            omega
          · exact List.nodup_reverse.mpr (List.nodup_cons.mpr ⟨h2, hnd⟩)
          · intro u hu
            rcases List.mem_cons.mp (List.mem_reverse.mp hu) with rfl | hmem
            · exact hcl
            · exact hdata u hmem
        · rw [if_neg h3]
          refine ih _ (by simp only [List.length_cons]; omega)
            (List.nodup_cons.mpr ⟨h2, hnd⟩) ?_
          intro u hu
          rcases List.mem_cons.mp hu with rfl | hmem
          · exact hcl
          · exact hdata u hmem
    · rw [if_neg h1]
      exact ih acc hlen hnd hdata

theorem imagesLenZero_of_nonempty (v : JVal (List String))
    (h : imagesNonempty v = true) : imagesLenZero v = false := by
  cases v <;> simp_all [imagesNonempty, imagesLenZero, List.length_pos]

theorem weightStep_fields (env : ScrapeEnv) (pd0 : ProductData) :
    (weightStep env pd0).title = pd0.title ∧
    (weightStep env pd0).price = pd0.price ∧
    (weightStep env pd0).description = pd0.description ∧
    (weightStep env pd0).images = pd0.images := by
  unfold weightStep
  split
  · exact ⟨rfl, rfl, rfl, rfl⟩
  · split
    · split <;> exact ⟨rfl, rfl, rfl, rfl⟩
    · exact ⟨rfl, rfl, rfl, rfl⟩

theorem weightStep_weight_truthy (env : ScrapeEnv) (pd0 : ProductData)
    (hw : pd0.weight.truthyStr = true ∨
          ∃ w, env.weightSpecific = some w ∧ (w != "") = true) :
    (weightStep env pd0).weight.truthyStr = true := by
  unfold weightStep
  rcases hw with hw | ⟨w, hsome, hne⟩
  · rw [if_pos hw]; exact hw
  · by_cases h0 : pd0.weight.truthyStr = true
    · rw [if_pos h0]; exact h0
    · rw [if_neg h0]
      simp [hsome, hne, JVal.truthyStr]

theorem deliveryStep_fields (env : ScrapeEnv) (opts : ScrapeOpts)
    (pd1 : ProductData) :
    (deliveryStep env opts pd1).title = pd1.title ∧
    (deliveryStep env opts pd1).price = pd1.price ∧
    (deliveryStep env opts pd1).description = pd1.description ∧
    (deliveryStep env opts pd1).images = pd1.images ∧
    (deliveryStep env opts pd1).weight = pd1.weight := by
  unfold deliveryStep
  split <;> exact ⟨rfl, rfl, rfl, rfl, rfl⟩

theorem extractDataWithIndexAndAI_complete (env : ScrapeEnv)
    (platform : String) (hc : indexComplete env.basicData = true) :
    extractDataWithIndexAndAI env platform =
      ({ env.basicData with source := .val platform }, 0) := by
  simp [extractDataWithIndexAndAI, hc]

theorem extractPhase_counts_zero (env : ScrapeEnv) (opts : ScrapeOpts)
    (platform : String)
    (hc : indexComplete env.basicData = true)
    (hw : env.basicData.weight.truthyStr = true ∨
          ∃ w, env.weightSpecific = some w ∧ (w != "") = true) :
    (extractPhase env opts platform).2.1 = 0 ∧
    (extractPhase env opts platform).2.2 = 0 := by
  have hext := extractDataWithIndexAndAI_complete env platform hc
  have hparts := hc
  simp only [indexComplete, Bool.and_eq_true] at hparts
  obtain ⟨⟨⟨ht, hp⟩, hd⟩, him⟩ := hparts
  have hw0 : ({ env.basicData with source := JVal.val platform } :
      ProductData).weight.truthyStr = true ∨
      ∃ w, env.weightSpecific = some w ∧ (w != "") = true := hw
  have hwt := weightStep_weight_truthy env _ hw0
  have hwf := weightStep_fields env
    ({ env.basicData with source := JVal.val platform })
  have hdf := deliveryStep_fields env opts
    (weightStep env { env.basicData with source := JVal.val platform })
  have hmiss : hasMissingData (deliveryStep env opts
      (weightStep env { env.basicData with source := JVal.val platform })) =
      false := by
    unfold hasMissingData
    rw [hdf.1, hdf.2.1, hdf.2.2.1, hdf.2.2.2.1, hdf.2.2.2.2,
      hwf.1, hwf.2.1, hwf.2.2.1, hwf.2.2.2, hwt]
    show (!(env.basicData.title.truthyStr) || _ || _ || _ || _) = false
    rw [ht, hp, hd, imagesLenZero_of_nonempty _ him]
    rfl
  unfold extractPhase
  rw [hext]
  simp only [hmiss, Bool.false_eq_true, if_false]
  exact ⟨trivial, trivial⟩

theorem scrapeCore_error_platform (url : String) (opts : ScrapeOpts)
    (store : CacheStore) (env : ScrapeEnv) (e : ScraperErr)
    (hdp : detectPlatform url = .error e) :
    scrapeCore url opts store env =
      ⟨.error e, store, ⟨true, 0, 0, 0, false⟩⟩ := by
  unfold scrapeCore
  rw [hdp]

theorem scrapeCore_goto_fail (url : String) (opts : ScrapeOpts)
    (store : CacheStore) (env : ScrapeEnv) (platform : String)
    (hdp : detectPlatform url = .ok platform) (hg : env.gotoFails = true) :
    scrapeCore url opts store env =
      ⟨.error ⟨"Error scraping product: " ++ env.gotoErrorMsg, 500⟩, store,
        ⟨true, 1, 0, 0, false⟩⟩ := by
  unfold scrapeCore
  rw [hdp]
  simp [hg]

theorem validate_finalize_ok (url : String) (env : ScrapeEnv)
    (platform : String) (pd : ProductData) :
    validateScrapedData (finalizeRecord url env platform
      (handleMissingData env.nowIso pd)) = .ok () := by
  have ht : (finalizeRecord url env platform
      (handleMissingData env.nowIso pd)).title.truthyStr = true := by
    show (JVal.val (pd.title.orDefault "Unknown Product")).truthyStr = true
    exact truthyStr_orDefault_unknown _
  unfold validateScrapedData
  rw [ht]
  rfl

theorem scrapeCore_main (url : String) (opts : ScrapeOpts)
    (store : CacheStore) (env : ScrapeEnv) (platform : String)
    (hdp : detectPlatform url = .ok platform) (hg : env.gotoFails = false) :
    scrapeCore url opts store env =
      ⟨.ok (finalizeRecord url env platform
          (handleMissingData env.nowIso (extractPhase env opts platform).1)),
        cacheProduct store url env.now (finalizeRecord url env platform
          (handleMissingData env.nowIso (extractPhase env opts platform).1)),
        ⟨true, 1, (extractPhase env opts platform).2.1,
          (extractPhase env opts platform).2.2, false⟩⟩ := by
  unfold scrapeCore
  rw [hdp]
  simp only [hg, Bool.false_eq_true, if_false,
    validate_finalize_ok url env platform]

theorem scrapeCore_counts_zero (url : String) (opts : ScrapeOpts)
    (store : CacheStore) (env : ScrapeEnv)
    (hc : indexComplete env.basicData = true)
    (hw : env.basicData.weight.truthyStr = true ∨
          ∃ w, env.weightSpecific = some w ∧ (w != "") = true) :
    (scrapeCore url opts store env).trace.aiVisionCalls = 0 ∧
    (scrapeCore url opts store env).trace.fillAICalls = 0 := by
  cases hdp : detectPlatform url with
  | error e =>
    rw [scrapeCore_error_platform url opts store env e hdp]
    exact ⟨rfl, rfl⟩
  | ok platform =>
    by_cases hg : env.gotoFails = true
    · rw [scrapeCore_goto_fail url opts store env platform hdp hg]
      exact ⟨rfl, rfl⟩
    · rw [Bool.not_eq_true] at hg
      rw [scrapeCore_main url opts store env platform hdp hg]
      exact extractPhase_counts_zero env opts platform hc hw

theorem scrapeCore_launched (url : String) (opts : ScrapeOpts)
    (store : CacheStore) (env : ScrapeEnv) :
    (scrapeCore url opts store env).trace.browserLaunched = true ∧
    (scrapeCore url opts store env).trace.servedFromCache = false := by
  cases hdp : detectPlatform url with
  | error e =>
    rw [scrapeCore_error_platform url opts store env e hdp]
    exact ⟨rfl, rfl⟩
  | ok platform =>
    by_cases hg : env.gotoFails = true
    · rw [scrapeCore_goto_fail url opts store env platform hdp hg]
      exact ⟨rfl, rfl⟩
    · rw [Bool.not_eq_true] at hg
      rw [scrapeCore_main url opts store env platform hdp hg]
      exact ⟨rfl, rfl⟩

theorem scrapeProduct_cache_hit (url : String) (opts : ScrapeOpts)
    (store : CacheStore) (env : ScrapeEnv) (d : ProductData)
    (hb : opts.bypassCache = false)
    (hget : getCachedProduct store url env.now = some d) :
    scrapeProduct url opts store env =
      ⟨.ok d, store, ⟨false, 0, 0, 0, true⟩⟩ := by
  unfold scrapeProduct
  simp [hb, hget]

theorem scrapeProduct_cache_miss (url : String) (opts : ScrapeOpts)
    (store : CacheStore) (env : ScrapeEnv)
    (h : opts.bypassCache = true ∨
      getCachedProduct store url env.now = none) :
    scrapeProduct url opts store env = scrapeCore url opts store env := by
  unfold scrapeProduct
  rcases h with h | h
  · simp [h]
  · by_cases hb : opts.bypassCache = true
    · simp [hb]
    · rw [Bool.not_eq_true] at hb
      simp [hb, h]

theorem getCachedProduct_lookup_none (store : CacheStore) (url : String)
    (now : Int) (h : store.lookup url = none) :
    getCachedProduct store url now = none := by
  unfold getCachedProduct
  rw [h]

theorem allFieldsDefined_finalize (url : String) (env : ScrapeEnv)
    (platform : String) (d : ProductData) :
    allFieldsDefined (finalizeRecord url env platform
      (handleMissingData env.nowIso d)) = true := by
  have h := allFieldsDefined_handleMissingData env.nowIso d
  unfold allFieldsDefined at h ⊢
  unfold finalizeRecord
  simp only [defined_val, Bool.and_true, Bool.and_eq_true, and_true] at h ⊢
  tauto

/-! ### Concrete fixtures for witnesses and counterexamples -/

/-- A JS object with no keys at all (models absent fields, as when an
AI JSON answer omits a field). -/
def emptyPD : ProductData :=
  ⟨.absent, .absent, .absent, .absent, .absent, .absent, .absent, .absent,
   .absent, .absent, .absent, .absent, .absent⟩

/-- The initial `data` object of `extractBasicDataWithIndex`: every key
present, scalars `null`, arrays empty, delivery sub-object without a
`pincode` key. -/
def basicInit : ProductData :=
  { title := .null, price := .null, originalPrice := .null,
    description := .null, features := .val [], images := .val [],
    variants := .val ⟨.val [], .val [], .val []⟩,
    delivery := .val ⟨.null, .null, .null, .absent⟩,
    weight := .null, category := .null, source := .absent,
    scrapedAt := .absent, originalUrl := .absent }

/-- A delivery answer used by the pipeline fixtures. -/
def deliveryFix : Delivery :=
  ⟨.val true, .val "Delivery by Tomorrow", .val "Free", .val "201001"⟩

/-- Environment in which index extraction finds title, price,
description and one image, but no weight. -/
def envC1 : ScrapeEnv :=
  { now := 0, nowIso := "2026-10-12T00:00:00.000Z", gotoFails := false,
    gotoErrorMsg := "",
    basicData := { basicInit with
      title := .val "Widget", price := .val "₹999",
      description := .val "A fine widget",
      images := .val ["https://img.example/1.jpg"] },
    aiData := emptyPD, weightSpecific := none,
    deliveryInfo := deliveryFix,
    flipkartImages := none, fillAIResult := none }

/-- Like `envC1` but the index extraction also finds a weight. -/
def envC1w : ScrapeEnv :=
  { envC1 with basicData := { envC1.basicData with weight := .val "500g" } }

/-- Claim C1 (counterexample): with an index result containing a
non-null title, price, description and one image but no weight, the
pipeline still makes the AI fill-missing-data call (`hasMissingData` in
`scrapeProduct` also tests `weight`), so the claim that the AI strategy
is not invoked is false. -/
theorem claim_C1_counterexample :
    indexComplete envC1.basicData = true ∧
    (scrapeProduct "https://www.amazon.in/dp/B0TEST" ⟨true, true, "201001"⟩
      [] envC1).trace.fillAICalls = 1 := by decide

/-- Claim C1 (amended): if index-based extraction yields a non-null
title, price, description and at least one image, AND the weight is
resolved (by the index result or by the dedicated weight scan), the
pipeline completes without any AI-vision call and without any AI
fill-missing-data call. -/
theorem claim_C1_amended (url : String) (opts : ScrapeOpts)
    (store : CacheStore) (env : ScrapeEnv)
    (hc : indexComplete env.basicData = true)
    (hw : env.basicData.weight.truthyStr = true ∨
          ∃ w, env.weightSpecific = some w ∧ (w != "") = true) :
    (scrapeProduct url opts store env).trace.aiVisionCalls = 0 ∧
    (scrapeProduct url opts store env).trace.fillAICalls = 0 := by
  unfold scrapeProduct
  by_cases hb : (!opts.bypassCache) = true
  · rw [if_pos hb]
    cases hget : getCachedProduct store url env.now with
    | some d => exact ⟨rfl, rfl⟩
    | none => exact scrapeCore_counts_zero url opts store env hc hw
  · rw [if_neg hb]
    exact scrapeCore_counts_zero url opts store env hc hw

/-- Claim C1 (witness): a complete index result (weight included) is
returned with zero AI calls of either kind. -/
theorem claim_C1_witness :
    (scrapeProduct "https://www.amazon.in/dp/B0TEST" ⟨true, true, "201001"⟩
      [] envC1w).trace.aiVisionCalls = 0 ∧
    (scrapeProduct "https://www.amazon.in/dp/B0TEST" ⟨true, true, "201001"⟩
      [] envC1w).trace.fillAICalls = 0 :=
  claim_C1_amended _ _ _ _ (by decide) (Or.inl (by decide))

/-- Index result whose variants object has a set `sizes` key. -/
def basicC2 : ProductData :=
  { basicInit with variants := .val ⟨.val ["M"], .val [], .val []⟩ }

/-- AI result whose variants object also carries a `sizes` key. -/
def aiC2 : ProductData :=
  { emptyPD with
    price := .val "₹999",
    variants := .val ⟨.val ["L"], .absent, .absent⟩ }

/-- Claim C2 (counterexample): the index result set `variants.sizes` to
`["M"]`; the AI result carries `sizes = ["L"]`; the merged record has
`sizes = ["L"]`.  The AI value overrode a key the index result had set,
so "AI values overriding only keys the index result left unset" is
false. -/
theorem claim_C2_counterexample :
    basicC2.variants = .val ⟨.val ["M"], .val [], .val []⟩ ∧
    aiC2.variants = .val ⟨.val ["L"], .absent, .absent⟩ ∧
    (mergeIndexAI basicC2 aiC2 "amazon").variants =
      .val ⟨.val ["L"], .val [], .val []⟩ := by decide

/-- Claim C2 (amended): when both an index result and an AI result
exist, the merged record takes the AI value for every field the index
left null (index `price = null` with AI `price` set gives the AI
price), the images and features arrays are unioned and de-duplicated,
and the variants objects are shallow-merged with every key present in
the AI result overriding the index result (set or not). -/
theorem claim_C2_amended (basic ai : ProductData) (platform p : String)
    (hnull : basic.price = .null) (hai : ai.price = .val p) :
    (mergeIndexAI basic ai platform).price = .val p ∧
    ((mergeIndexAI basic ai platform).images.jsArr.Nodup ∧
      ∀ u, u ∈ (mergeIndexAI basic ai platform).images.jsArr ↔
        (u ∈ basic.images.jsArr ∨ u ∈ ai.images.jsArr)) ∧
    ((mergeIndexAI basic ai platform).features.jsArr.Nodup ∧
      ∀ u, u ∈ (mergeIndexAI basic ai platform).features.jsArr ↔
        (u ∈ basic.features.jsArr ∨ u ∈ ai.features.jsArr)) ∧
    ∀ bv av, basic.variants = .val bv → ai.variants = .val av →
      (mergeIndexAI basic ai platform).variants =
        .val ⟨bv.sizes.spread av.sizes, bv.colors.spread av.colors,
          bv.other.spread av.other⟩ := by
  refine ⟨?_, ⟨?_, ?_⟩, ⟨?_, ?_⟩, ?_⟩
  · show basic.price.spread ai.price = .val p
    rw [hnull, hai]
    rfl
  · exact nodup_dedupFirst _
  · intro u
    show u ∈ dedupFirst (basic.images.jsArr ++ ai.images.jsArr) ↔ _
    rw [mem_dedupFirst, List.mem_append]
  · exact nodup_dedupFirst _
  · intro u
    show u ∈ dedupFirst (basic.features.jsArr ++ ai.features.jsArr) ↔ _
    rw [mem_dedupFirst, List.mem_append]
  · intro bv av hbv hav
    show JVal.val (mergeVariantsJs basic.variants ai.variants) = _
    rw [hbv, hav]
    rfl

/-- Claim C2 (witness): the spec's own merge-precedence example, with
union/de-duplication of one overlapping image. -/
theorem claim_C2_witness :
    (mergeIndexAI basicC2 aiC2 "amazon").price = .val "₹999" :=
  (claim_C2_amended basicC2 aiC2 "amazon" "₹999" rfl rfl).1

/-- Claim C3: any record the extraction pipeline returns (not served
from the cache) has every field present: normalization substitutes the
documented defaults and no field is ever `undefined`/absent, including
the nested variants and delivery objects. -/
theorem claim_C3 (url : String) (opts : ScrapeOpts) (store : CacheStore)
    (env : ScrapeEnv) (r : ProductData)
    (h : (scrapeProduct url opts store env).result = .ok r)
    (hs : (scrapeProduct url opts store env).trace.servedFromCache = false) :
    allFieldsDefined r = true := by
  have hmiss : opts.bypassCache = true ∨
      getCachedProduct store url env.now = none := by
    by_cases hb : opts.bypassCache = true
    · exact Or.inl hb
    · rw [Bool.not_eq_true] at hb
      cases hget : getCachedProduct store url env.now with
      | none => exact Or.inr rfl
      | some d =>
        rw [scrapeProduct_cache_hit url opts store env d hb hget] at hs
        exact absurd hs (by simp)
  rw [scrapeProduct_cache_miss url opts store env hmiss] at h
  cases hdp : detectPlatform url with
  | error e =>
    rw [scrapeCore_error_platform url opts store env e hdp] at h
    exact absurd h (by simp)
  | ok platform =>
    by_cases hg : env.gotoFails = true
    · rw [scrapeCore_goto_fail url opts store env platform hdp hg] at h
      exact absurd h (by simp)
    · rw [Bool.not_eq_true] at hg
      rw [scrapeCore_main url opts store env platform hdp hg] at h
      have hr : finalizeRecord url env platform (handleMissingData env.nowIso
          (extractPhase env opts platform).1) = r := by
        simpa using h
      rw [← hr]
      exact allFieldsDefined_finalize url env platform _

/-- The run backing the C3 witness. -/
def runC3 : ScrapeResult :=
  scrapeProduct "https://www.amazon.in/dp/B0TEST" ⟨true, true, "201001"⟩
    [] envC1w

/-- The record returned by `runC3`. -/
def rC3 : ProductData :=
  match runC3.result with
  | .ok r => r
  | .error _ => emptyPD

/-- Claim C3 (witness): the concrete record extracted by `runC3` has
every field defined. -/
theorem claim_C3_witness : allFieldsDefined rC3 = true :=
  claim_C3 "https://www.amazon.in/dp/B0TEST" ⟨true, true, "201001"⟩ []
    envC1w rC3 rfl (by decide)

/-- Claim C4 (amended): the image list selected by the index-based
extraction contains at most five entries, no duplicates and no `data:`
URL; the index/AI merge de-duplicates the concatenated image lists (so
merged lists are duplicate-free) but applies no length cap and no
`data:` filter to the AI contribution. -/
theorem claim_C4_amended (origin : String) (candidates : List String)
    (basic ai : ProductData) (platform : String) :
    (selectTopImages origin candidates).length ≤ 5 ∧
    (selectTopImages origin candidates).Nodup ∧
    (∀ u ∈ selectTopImages origin candidates,
      jsStartsWith u "data:" = false) ∧
    (mergeIndexAI basic ai platform).images =
      .val (dedupFirst (basic.images.jsArr ++ ai.images.jsArr)) ∧
    (dedupFirst (basic.images.jsArr ++ ai.images.jsArr)).Nodup := by
  obtain ⟨h1, h2, h3⟩ := selectImagesAux_spec origin candidates []
    (by decide) List.nodup_nil (by intro u hu; cases hu)
  exact ⟨h1, h2, h3, rfl, nodup_dedupFirst _⟩

/-- Claim C4 (witness): a concrete candidate list with duplicates, a
`data:` URL and seven valid URLs yields at most five unique selected
images. -/
theorem claim_C4_witness :
    (selectTopImages "https://shop.example"
      ["/a.jpg", "/a.jpg?v=2", "data:image/png;base64,AAA", "/b.jpg",
        "//cdn.example/c.jpg", "d.jpg", "/e.jpg", "/f.jpg"]).length ≤ 5 :=
  (claim_C4_amended "https://shop.example"
    ["/a.jpg", "/a.jpg?v=2", "data:image/png;base64,AAA", "/b.jpg",
      "//cdn.example/c.jpg", "d.jpg", "/e.jpg", "/f.jpg"]
    emptyPD emptyPD "amazon").1

/-- Environment in which the index finds nothing and the AI strategy
supplies everything, including six image URLs one of which is a
`data:` URL. -/
def envC4 : ScrapeEnv :=
  { now := 0, nowIso := "2026-10-12T00:00:00.000Z", gotoFails := false,
    gotoErrorMsg := "",
    basicData := basicInit,
    aiData := { emptyPD with
      title := .val "Gadget", price := .val "₹499",
      description := .val "A gadget", weight := .val "1kg",
      category := .val "Electronics",
      images := .val ["https://a/1.jpg", "https://a/2.jpg",
        "https://a/3.jpg", "https://a/4.jpg", "https://a/5.jpg",
        "data:image/png;base64,AAA"] },
    weightSpecific := none, deliveryInfo := deliveryFix,
    flipkartImages := none, fillAIResult := none }

/-- The image list of the `envC4` pipeline output. -/
def imgsC4 : List String :=
  ["https://a/1.jpg", "https://a/2.jpg", "https://a/3.jpg",
    "https://a/4.jpg", "https://a/5.jpg", "data:image/png;base64,AAA"]

/-- Claim C4 (counterexample): with the AI strategy contributing six
images including a `data:` URL, the pipeline's output record carries
all six — length 6 > 5 and a `data:` entry — so the claimed invariant
on every output is false. -/
theorem claim_C4_counterexample :
    ((scrapeProduct "https://www.amazon.in/dp/B0TEST2" ⟨true, true, "201001"⟩
        [] envC4).result.toOption.map (fun r => r.images)) =
      some (.val imgsC4) ∧
    imgsC4.length = 6 ∧ "data:image/png;base64,AAA" ∈ imgsC4 := by decide

/-- Claim C5: cache lookup returns the stored record exactly when an
entry exists whose age is strictly below the 24-hour TTL; with a stale
entry (age 24h or more) the lookup misses and the pipeline proceeds to
a fresh extraction (browser launched, nothing served from the cache). -/
theorem claim_C5 (store : CacheStore) (url : String) (now : Int) :
    (∀ r, getCachedProduct store url now = some r ↔
      ∃ e, store.lookup url = some e ∧ now - e.timestamp < TTL_MS ∧
        r = e.data) ∧
    ∀ (e : CacheEntry) (opts : ScrapeOpts) (env : ScrapeEnv),
      store.lookup url = some e → now - e.timestamp ≥ TTL_MS →
      env.now = now →
      (scrapeProduct url opts store env).trace.servedFromCache = false ∧
      (scrapeProduct url opts store env).trace.browserLaunched = true := by
  constructor
  · intro r
    unfold getCachedProduct
    cases hl : store.lookup url with
    | none => simp
    | some e =>
      show (if now - e.timestamp < TTL_MS then some e.data else none) =
        some r ↔ ∃ e2, some e = some e2 ∧ now - e2.timestamp < TTL_MS ∧
          r = e2.data
      by_cases httl : now - e.timestamp < TTL_MS
      · rw [if_pos httl]
        constructor
        · intro h
          rw [Option.some.injEq] at h
          exact ⟨e, rfl, httl, h.symm⟩
        · rintro ⟨e2, he2, httl2, hr⟩
          rw [Option.some.injEq] at he2
          subst he2
          rw [hr]
      · rw [if_neg httl]
        constructor
        · intro h
          exact absurd h (by simp)
        · rintro ⟨e2, he2, httl2, hr⟩
          rw [Option.some.injEq] at he2
          subst he2
          exact absurd httl2 httl
  · intro e opts env hl httl hnow
    have hget : getCachedProduct store url env.now = none := by
      unfold getCachedProduct
      rw [hl, hnow]
      show (if now - e.timestamp < TTL_MS then some e.data else none) = none
      rw [if_neg (not_lt.mpr httl)]
    rw [scrapeProduct_cache_miss url opts store env (Or.inr hget)]
    exact ⟨(scrapeCore_launched url opts store env).2,
      (scrapeCore_launched url opts store env).1⟩

/-- A cache entry written at time 0. -/
def entW : CacheEntry := ⟨0, "https://www.amazon.in/dp/W", basicInit⟩

/-- A one-entry cache store. -/
def storeW : CacheStore := [("https://www.amazon.in/dp/W", entW)]

/-- An environment whose clock sits exactly 24 hours past `entW`. -/
def envC5s : ScrapeEnv := { envC1 with now := TTL_MS }

/-- Claim C5 (witness): a 100 ms old entry is served; the same entry at
exactly 24h of age is a miss and extraction is performed again. -/
theorem claim_C5_witness :
    getCachedProduct storeW "https://www.amazon.in/dp/W" 100 =
      some basicInit ∧
    (scrapeProduct "https://www.amazon.in/dp/W" ⟨false, true, "201001"⟩
      storeW envC5s).trace.servedFromCache = false :=
  ⟨((claim_C5 storeW "https://www.amazon.in/dp/W" 100).1 basicInit).mpr
      ⟨entW, rfl, by decide, rfl⟩,
    ((claim_C5 storeW "https://www.amazon.in/dp/W" envC5s.now).2 entW
      ⟨false, true, "201001"⟩ envC5s rfl (by decide) rfl).1⟩

/-- Claim C6: calling the entry point twice for the same URL with
`bypassCache` unset, the first call on a cache without an entry for the
URL and the second within the 24-hour TTL of the first, returns the
identical record: the second call is served from the entry the first
call wrote. -/
theorem claim_C6 (url : String) (opts : ScrapeOpts) (store : CacheStore)
    (env1 env2 : ScrapeEnv) (r : ProductData)
    (hb : opts.bypassCache = false)
    (hl : store.lookup url = none)
    (h1 : (scrapeProduct url opts store env1).result = .ok r)
    (httl : env2.now - env1.now < TTL_MS) :
    (scrapeProduct url opts (scrapeProduct url opts store env1).store
      env2).result = .ok r := by
  have hget1 : getCachedProduct store url env1.now = none :=
    getCachedProduct_lookup_none store url env1.now hl
  rw [scrapeProduct_cache_miss url opts store env1 (Or.inr hget1)] at h1 ⊢
  cases hdp : detectPlatform url with
  | error e =>
    rw [scrapeCore_error_platform url opts store env1 e hdp] at h1
    exact absurd h1 (by simp)
  | ok platform =>
    by_cases hg : env1.gotoFails = true
    · rw [scrapeCore_goto_fail url opts store env1 platform hdp hg] at h1
      exact absurd h1 (by simp)
    · rw [Bool.not_eq_true] at hg
      rw [scrapeCore_main url opts store env1 platform hdp hg] at h1
      have hr : finalizeRecord url env1 platform (handleMissingData
          env1.nowIso (extractPhase env1 opts platform).1) = r := by
        simpa using h1
      have hstore : (scrapeCore url opts store env1).store =
          cacheProduct store url env1.now r := by
        rw [scrapeCore_main url opts store env1 platform hdp hg, hr]
      have hget2 : getCachedProduct (cacheProduct store url env1.now r)
          url env2.now = some r := by
        unfold getCachedProduct cacheProduct
        simp only [List.lookup, beq_self_eq_true]
        rw [if_pos httl]
      rw [hstore, scrapeProduct_cache_hit url opts
        (cacheProduct store url env1.now r) env2 r hb hget2]

/-- Options of the C6 witness run (`bypassCache` unset). -/
def optsC6 : ScrapeOpts := ⟨false, true, "201001"⟩

/-- The first run backing the C6 witness. -/
def runC6 : ScrapeResult :=
  scrapeProduct "https://www.amazon.in/dp/B0TEST" optsC6 [] envC1w

/-- The record the first C6 run returns. -/
def rC6 : ProductData :=
  match runC6.result with
  | .ok r => r
  | .error _ => emptyPD

/-- The second C6 run happens six minutes later. -/
def envC6b : ScrapeEnv := { envC1w with now := 360000 }

/-- Claim C6 (witness): the second call, six minutes after the first,
returns the very record the first call produced. -/
theorem claim_C6_witness :
    (scrapeProduct "https://www.amazon.in/dp/B0TEST" optsC6 runC6.store
      envC6b).result = .ok rC6 :=
  claim_C6 "https://www.amazon.in/dp/B0TEST" optsC6 [] envC1w envC6b rC6
    rfl rfl rfl (by decide)

/-- Claim C7 (counterexample): for an unsupported URL the entry point
does fail with the 400 unsupported-platform error, but the browser IS
launched before the platform check (`puppeteer.launch` precedes
`detectPlatform` in `scrapeProduct`), so "no renderer (browser)
invocation occurs" is false.  Only the navigation is skipped. -/
theorem claim_C7_counterexample :
    (scrapeProduct "https://www.ebay.com/itm/1" ⟨false, true, "201001"⟩
      [] envC1).result = .error ⟨"Unsupported platform", 400⟩ ∧
    (scrapeProduct "https://www.ebay.com/itm/1" ⟨false, true, "201001"⟩
      [] envC1).trace.browserLaunched = true := ⟨rfl, by decide⟩

/-- Claim C7 (amended): for every URL matching no supported platform
(and not cached), the entry point fails with the unsupported-source
error of classification 400 and never navigates to the URL; the
browser, however, is launched (and later closed) before platform
detection. -/
theorem claim_C7_amended (url : String) (opts : ScrapeOpts)
    (store : CacheStore) (env : ScrapeEnv) (e : ScraperErr)
    (hdp : detectPlatform url = .error e)
    (hl : store.lookup url = none) :
    (scrapeProduct url opts store env).result =
      .error ⟨"Unsupported platform", 400⟩ ∧
    (scrapeProduct url opts store env).trace.gotoAttempts = 0 ∧
    (scrapeProduct url opts store env).trace.browserLaunched = true := by
  have he : e = ⟨"Unsupported platform", 400⟩ := by
    unfold detectPlatform at hdp
    split_ifs at hdp
    simp_all
  subst he
  have hget : getCachedProduct store url env.now = none :=
    getCachedProduct_lookup_none store url env.now hl
  rw [scrapeProduct_cache_miss url opts store env (Or.inr hget),
    scrapeCore_error_platform url opts store env _ hdp]
  exact ⟨rfl, rfl, rfl⟩

/-- Claim C7 (witness): a concrete unsupported URL yields the 400
error with no navigation. -/
theorem claim_C7_witness :
    (scrapeProduct "https://www.ebay.com/itm/2" ⟨false, true, "201001"⟩
      [] envC1).result = .error ⟨"Unsupported platform", 400⟩ ∧
    (scrapeProduct "https://www.ebay.com/itm/2" ⟨false, true, "201001"⟩
      [] envC1).trace.gotoAttempts = 0 :=
  ⟨(claim_C7_amended "https://www.ebay.com/itm/2" ⟨false, true, "201001"⟩
      [] envC1 ⟨"Unsupported platform", 400⟩ rfl rfl).1,
    (claim_C7_amended "https://www.ebay.com/itm/2" ⟨false, true, "201001"⟩
      [] envC1 ⟨"Unsupported platform", 400⟩ rfl rfl).2.1⟩

/-- Environment whose navigation fails (renderer timeout). -/
def envC8 : ScrapeEnv :=
  { envC1 with
    gotoFails := true,
    gotoErrorMsg := "Navigation timeout of 60000 ms exceeded" }

/-- Claim C8 (counterexample): when navigation fails, the pipeline
performs exactly ONE navigation attempt and surfaces the 500 error —
it does not retry the URL once before failing as claimed (the claim
requires two attempts on persistent failure). -/
theorem claim_C8_counterexample :
    (scrapeProduct "https://www.flipkart.com/p/x" ⟨false, true, "201001"⟩
      [] envC8).trace.gotoAttempts = 1 ∧
    (scrapeProduct "https://www.flipkart.com/p/x" ⟨false, true, "201001"⟩
      [] envC8).result = .error
        ⟨"Error scraping product: Navigation timeout of 60000 ms exceeded",
          500⟩ := ⟨by decide, rfl⟩

/-- Claim C8 (amended): a navigation failure is not retried — the
pipeline fails after its single navigation attempt — and the surfaced
failure carries the internal/renderer classification 500. -/
theorem claim_C8_amended (url : String) (opts : ScrapeOpts)
    (store : CacheStore) (env : ScrapeEnv) (platform : String)
    (hdp : detectPlatform url = .ok platform)
    (hg : env.gotoFails = true)
    (hl : store.lookup url = none) :
    (scrapeProduct url opts store env).result =
      .error ⟨"Error scraping product: " ++ env.gotoErrorMsg, 500⟩ ∧
    (scrapeProduct url opts store env).trace.gotoAttempts = 1 := by
  have hget : getCachedProduct store url env.now = none :=
    getCachedProduct_lookup_none store url env.now hl
  rw [scrapeProduct_cache_miss url opts store env (Or.inr hget),
    scrapeCore_goto_fail url opts store env platform hdp hg]
  exact ⟨rfl, rfl⟩

/-- Claim C8 (witness): a concrete failed navigation surfaces the 500
error after one attempt. -/
theorem claim_C8_witness :
    (scrapeProduct "https://www.flipkart.com/p/y" ⟨false, true, "201001"⟩
      [] envC8).trace.gotoAttempts = 1 :=
  (claim_C8_amended "https://www.flipkart.com/p/y" ⟨false, true, "201001"⟩
    [] envC8 "flipkart" rfl rfl rfl).2

/-- Environment in which every extraction strategy comes back empty:
the index finds nothing, the AI answer has no fields, the weight scan
and the fill AI call fail. -/
def envC9 : ScrapeEnv :=
  { now := 0, nowIso := "2026-10-12T00:00:00.000Z", gotoFails := false,
    gotoErrorMsg := "", basicData := basicInit, aiData := emptyPD,
    weightSpecific := none, deliveryInfo := deliveryFix,
    flipkartImages := none, fillAIResult := none }

/-- Claim C9 (counterexample): when every strategy fails to produce a
title, the entry point does NOT surface the 422 incomplete-result
error: normalization substitutes the default title "Unknown Product"
before validation, so the run succeeds. -/
theorem claim_C9_counterexample :
    ((scrapeProduct "https://www.myntra.com/p/1" ⟨true, true, "201001"⟩
        [] envC9).result.toOption.map (fun r => r.title)) =
      some (.val "Unknown Product") := by decide

/-- Claim C9 (amended): `validateScrapedData` raises the 422
incomplete-result error exactly on records lacking a truthy title, but
every record that has passed normalization (`handleMissingData`)
carries the default title "Unknown Product", so validation always
succeeds on the pipeline's normalized records and the 422 error is
unreachable from the entry point. -/
theorem claim_C9_amended (d e : ProductData) (now : String)
    (h : e.title.truthyStr = false) :
    validateScrapedData (handleMissingData now d) = .ok () ∧
    validateScrapedData e =
      .error ⟨"Product data incomplete. Missing title.", 422⟩ := by
  constructor
  · have ht : (handleMissingData now d).title.truthyStr = true := by
      show (JVal.val (d.title.orDefault "Unknown Product")).truthyStr = true
      exact truthyStr_orDefault_unknown _
    unfold validateScrapedData
    rw [ht]
    rfl
  · unfold validateScrapedData
    rw [h]
    rfl

/-- Claim C9 (witness): a record with all fields null passes validation
after normalization, while the raw record would be rejected with 422. -/
theorem claim_C9_witness :
    validateScrapedData (handleMissingData "2026-10-12T00:00:00.000Z"
      basicInit) = .ok () ∧
    validateScrapedData basicInit =
      .error ⟨"Product data incomplete. Missing title.", 422⟩ :=
  claim_C9_amended basicInit basicInit "2026-10-12T00:00:00.000Z" rfl

/-- Delivery environment in which the AI-vision strategy succeeds but
reports `available: null` (its prompt explicitly allows null). -/
def envC10 : DeliveryEnv :=
  { outerThrow := false,
    direct := ⟨.null, .null, .null, .val "201001"⟩,
    textScan := none,
    aiResult := some ⟨.null, .val "Delivered in 3-5 days", .val "Free"⟩ }

/-- Claim C10 (counterexample): when the AI-vision path succeeds with a
parsed `available: null`, `checkDeliveryWithAI` passes the null
through, so "it never returns available=null" is false. -/
theorem claim_C10_counterexample :
    (checkDeliveryWithAI "201001" envC10).available = JVal.null := by decide

/-- Claim C10 (amended): the delivery inquiry is total; when every
strategy fails (no usable direct answer, no page-text hit, no parsable
AI answer) or the body throws, it returns the fixed generic record with
`available = true`, generic placeholder strings and the requested
pincode; it never propagates an exception.  However, a successful
AI-vision parse is passed through verbatim and may carry
`available = null`. -/
theorem claim_C10_amended (pincode : String) (env : DeliveryEnv)
    (hdirect : (env.direct.estimatedDate.truthyStr &&
      env.direct.estimatedDate != .val "Error checking delivery") = false)
    (htext : env.textScan = none)
    (hai : env.aiResult = none) :
    (checkDeliveryWithAI pincode env).available = .val true ∧
    (checkDeliveryWithAI pincode env).charges = .val "Check at checkout" ∧
    (checkDeliveryWithAI pincode env).pincode = .val pincode ∧
    ((checkDeliveryWithAI pincode env).estimatedDate =
        .val "Standard delivery, check at checkout for details" ∨
      (checkDeliveryWithAI pincode env).estimatedDate =
        .val "Standard delivery available, check at checkout for exact timeframe") := by
  unfold checkDeliveryWithAI
  by_cases ho : env.outerThrow = true
  · rw [if_pos ho]
    exact ⟨rfl, rfl, rfl, Or.inl rfl⟩
  · rw [if_neg ho, if_neg (by rw [hdirect]; exact Bool.false_ne_true)]
    rw [htext, hai]
    exact ⟨rfl, rfl, rfl, Or.inr rfl⟩

/-- Delivery environment in which every strategy fails. -/
def envC10w : DeliveryEnv :=
  { outerThrow := false,
    direct := ⟨.null, .null, .null, .val "110001"⟩,
    textScan := none,
    aiResult := none }

/-- Claim C10 (witness): with every strategy failing, the generic
record with `available = true` and the requested pincode is returned. -/
theorem claim_C10_witness :
    (checkDeliveryWithAI "110001" envC10w).available = .val true ∧
    (checkDeliveryWithAI "110001" envC10w).pincode = .val "110001" :=
  ⟨(claim_C10_amended "110001" envC10w rfl rfl rfl).1,
    (claim_C10_amended "110001" envC10w rfl rfl rfl).2.2.1⟩

end ProductScraper
